import Mathlib

/-!
Verification development for the OnaccClimateRisk climate-risk engine.

The Python sources are shallowly embedded below.  Numeric values that the
program manipulates as IEEE floats are modelled as exact rationals (`ℚ`);
values produced through `numpy`'s square root (population standard
deviation) are modelled in `ℝ` via `Real.sqrt`.  The scipy gamma-fit used
by the SPI computation is floating-point numerics and is modelled as an
explicit parameter (`gammaFit`): `some v` stands for a successful fit
producing the finite value `v`, `none` for the exception path that the
source catches and answers with its documented z-score fallback.
-/

/- ── drought_monitoring/utils/drought_calculator.py ─────────────────── -/

/-- The indicator values read by `assess_drought_risk` via
`indicators.get(...)` (drought_calculator.py).  The dictionary entries are
modelled as a typed record; every claim below supplies all keys, so the
`.get` defaults never fire. -/
structure Indicators where
  spi_mean : ℚ
  precipitation_deficit : ℚ
  consecutive_dry_days : ℚ
  heat_stress : ℚ
  soil_moisture_mean : ℚ
  avg_temperature : ℚ
deriving Repr, DecidableEq

/-- SPI branch of `assess_drought_risk`: score points and the factor
string recorded when a branch fires. -/
def spiContribution (spi_mean : ℚ) : ℕ × Option String :=
  if spi_mean ≤ -2 then (40, some "SPI très bas (sécheresse extrême)")
  else if spi_mean ≤ -(3/2) then (30, some "SPI bas (sécheresse sévère)")
  else if spi_mean ≤ -1 then (20, some "SPI modérément bas")
  else if spi_mean ≤ -(1/2) then (10, some "SPI légèrement bas")
  else (0, none)

/-- Precipitation-deficit branch of `assess_drought_risk`. -/
def deficitContribution (deficit : ℚ) : ℕ × Option String :=
  if 60 < deficit then (30, some "Déficit pluviométrique extrême")
  else if 40 < deficit then (20, some "Déficit pluviométrique sévère")
  else if 20 < deficit then (10, some "Déficit pluviométrique modéré")
  else (0, none)

/-- Consecutive-dry-days branch of `assess_drought_risk`. -/
def dryDaysContribution (dry_days : ℚ) : ℕ × Option String :=
  if 20 < dry_days then (20, some "Longue période sans pluie")
  else if 10 < dry_days then (10, some "Période sèche prolongée")
  else (0, none)

/-- Heat-stress branch of `assess_drought_risk`. -/
def heatStressContribution (heat_stress : ℚ) : ℕ × Option String :=
  if 50 < heat_stress then (10, some "Fort stress thermique")
  else (0, none)

/-- Soil-moisture branch of `assess_drought_risk`. -/
def soilMoistureContribution (soil_moisture : ℚ) : ℕ × Option String :=
  if soil_moisture < 20 then (15, some "Humidité du sol très critique")
  else if soil_moisture < 30 then (10, some "Humidité du sol faible")
  else (0, none)

/-- `generate_recommendations` (drought_calculator.py). -/
def generate_recommendations (risk_level : String) (indicators : Indicators) :
    List String :=
  let base :=
    if risk_level = "Élevé" ∨ risk_level = "Très Élevé" then
      ["Activation des plans d\x27urgence sécheresse",
       "Restrictions d\x27eau obligatoires",
       "Mise en place de systèmes d\x27irrigation d\x27urgence",
       "Surveillance renforcée des ressources en eau",
       "Préparation à la distribution d\x27aide humanitaire"]
    else if risk_level = "Modéré" then
      ["Sensibilisation des agriculteurs aux économies d\x27eau",
       "Promotion des pratiques agricoles résilientes",
       "Surveillance accrue des indicateurs climatiques",
       "Planification des mesures de restriction volontaire"]
    else
      ["Surveillance de routine des paramètres climatiques",
       "Maintien des bonnes pratiques de gestion de l\x27eau",
       "Planification à long terme de l\x27adaptation climatique"]
  let withSoil :=
    if indicators.soil_moisture_mean < 30 then
      base ++ ["Irrigation de sauvegarde recommandée pour les cultures sensibles"]
    else base
  let withDry :=
    if 15 < indicators.consecutive_dry_days then
      withSoil ++ ["Évaluation des besoins en fourrage pour le bétail"]
    else withSoil
  if 40 < indicators.heat_stress then
    withDry ++ ["Mise en place de zones d\x27ombre et d\x27abreuvement pour le bétail"]
  else withDry

/-- Result record of `assess_drought_risk`. -/
structure RiskAssessment where
  risk_level : String
  risk_score : ℕ
  risk_color : String
  factors : List String
  spi_value : ℚ
  precipitation_deficit : ℚ
  avg_temperature : ℚ
  recommendations : List String
deriving Repr, DecidableEq

/-- Risk level / colour classification at the end of
`assess_drought_risk`. -/
def classifyRisk (risk_score : ℕ) : String × String :=
  if 70 ≤ risk_score then ("Très Élevé", "red")
  else if 50 ≤ risk_score then ("Élevé", "orange")
  else if 30 ≤ risk_score then ("Modéré", "yellow")
  else if 15 ≤ risk_score then ("Faible", "blue")
  else ("Très Faible", "green")

/-- `assess_drought_risk` (drought_calculator.py).  The sequential
`risk_score += …` / `factors.append(…)` updates are gathered from the
per-indicator contribution functions above, in source order.  The
`try/except` wrapper cannot fire on the typed inputs modelled here. -/
def assess_drought_risk (indicators : Indicators) : RiskAssessment :=
  let cSpi := spiContribution indicators.spi_mean
  let cDef := deficitContribution indicators.precipitation_deficit
  let cDry := dryDaysContribution indicators.consecutive_dry_days
  let cHeat := heatStressContribution indicators.heat_stress
  let cSoil := soilMoistureContribution indicators.soil_moisture_mean
  let risk_score := cSpi.1 + cDef.1 + cDry.1 + cHeat.1 + cSoil.1
  let factors :=
    [cSpi.2, cDef.2, cDry.2, cHeat.2, cSoil.2].filterMap id
  let lc := classifyRisk risk_score
  { risk_level := lc.1
    risk_score := risk_score
    risk_color := lc.2
    factors := factors
    spi_value := indicators.spi_mean
    precipitation_deficit := indicators.precipitation_deficit
    avg_temperature := indicators.avg_temperature
    recommendations := generate_recommendations lc.1 indicators }

/-- `get_default_risk_assessment` (drought_calculator.py). -/
def get_default_risk_assessment : RiskAssessment :=
  { risk_level := "Indéterminé"
    risk_score := 0
    risk_color := "gray"
    factors := ["Données insuffisantes pour l\x27analyse"]
    spi_value := 0
    precipitation_deficit := 0
    avg_temperature := 25
    recommendations := ["Collecter plus de données pour une analyse fiable"] }

/-- C3: the worked example.  `spi_mean = -2.1, precipitation_deficit = 65,
consecutive_dry_days = 25, heat_stress = 55, soil_moisture_mean = 15`
(avg_temperature immaterial, set to 25) scores exactly
40+30+20+10+15 = 115 — not capped to 100 — and classifies as
"Très Élevé". -/
theorem C3_additive_score_uncapped :
    (assess_drought_risk
      { spi_mean := -(21/10), precipitation_deficit := 65,
        consecutive_dry_days := 25, heat_stress := 55,
        soil_moisture_mean := 15, avg_temperature := 25 }).risk_score = 115 ∧
    (assess_drought_risk
      { spi_mean := -(21/10), precipitation_deficit := 65,
        consecutive_dry_days := 25, heat_stress := 55,
        soil_moisture_mean := 15, avg_temperature := 25 }).risk_level
      = "Très Élevé" := by
  constructor <;>
    norm_num [assess_drought_risk, spiContribution, deficitContribution,
      dryDaysContribution, heatStressContribution, soilMoistureContribution,
      classifyRisk]

/-- The deficit contribution points are monotone in the deficit. -/
theorem deficitContribution_fst_mono {d1 d2 : ℚ} (h : d1 ≤ d2) :
    (deficitContribution d1).1 ≤ (deficitContribution d2).1 := by
  unfold deficitContribution
  split_ifs with h1 h2 h3 h4 h5 h6 <;>
    first
      | omega
      | (exfalso; linarith)

/-- C5: `assess_drought_risk` is monotone in the precipitation deficit —
two indicator sets that agree everywhere except on
`precipitation_deficit` have risk scores ordered like their deficits. -/
theorem C5_risk_score_mono_in_deficit
    (ind : Indicators) (d1 d2 : ℚ) (h : d1 ≤ d2) :
    (assess_drought_risk { ind with precipitation_deficit := d1 }).risk_score ≤
    (assess_drought_risk { ind with precipitation_deficit := d2 }).risk_score := by
  have hmono := deficitContribution_fst_mono h
  simp only [assess_drought_risk]
  omega

/-- C5 witness: the monotonicity theorem applied at deficits 10 ≤ 70 with
the other indicators fixed. -/
theorem C5_risk_score_mono_in_deficit_witness :
    (assess_drought_risk
      { spi_mean := 0, precipitation_deficit := 10, consecutive_dry_days := 0,
        heat_stress := 0, soil_moisture_mean := 50, avg_temperature := 25 }).risk_score ≤
    (assess_drought_risk
      { spi_mean := 0, precipitation_deficit := 70, consecutive_dry_days := 0,
        heat_stress := 0, soil_moisture_mean := 50, avg_temperature := 25 }).risk_score :=
  C5_risk_score_mono_in_deficit
    { spi_mean := 0, precipitation_deficit := 0, consecutive_dry_days := 0,
      heat_stress := 0, soil_moisture_mean := 50, avg_temperature := 25 }
    10 70 (by norm_num)

/- ── drought_monitoring/app.py : detect_drought_periods ─────────────── -/

/-- `assess_drought_intensity` (app.py). -/
def assess_drought_intensity (duration : ℕ) (deficit : ℚ) : String :=
  let intensity_score := (duration : ℚ) * deficit
  if 10 < intensity_score then "extrême"
  else if 5 < intensity_score then "sévère"
  else if 2 < intensity_score then "modérée"
  else "faible"

/-- A closed drought period as built by `detect_drought_periods` (app.py).
The pandas timestamps carried in `start_date`/`end_date` run parallel to
`start_index`/`end_index`; the record keeps the indices. -/
structure DroughtPeriod where
  start_index : ℕ
  end_index : ℕ
  dry_days : ℕ
  total_precip : ℚ
  avg_precip : ℚ
  avg_deficit : ℚ
  intensity : String
deriving Repr, DecidableEq

/-- The in-progress period tracked by the loop variable `current_period`
before it is closed. -/
structure OpenPeriod where
  start_index : ℕ
  dry_days : ℕ
  total_precip : ℚ
deriving Repr, DecidableEq

/-- Closing an open period at end index `endIdx`: the `avg_precip`,
`avg_deficit` and `intensity` fields computed when a period ends
(app.py, both the in-loop close and the end-of-data close). -/
def closePeriod (dry_threshold : ℚ) (c : OpenPeriod) (endIdx : ℕ) :
    DroughtPeriod :=
  let avg_precip := c.total_precip / (c.dry_days : ℚ)
  let avg_deficit := dry_threshold - avg_precip
  { start_index := c.start_index
    end_index := endIdx
    dry_days := c.dry_days
    total_precip := c.total_precip
    avg_precip := avg_precip
    avg_deficit := avg_deficit
    intensity := assess_drought_intensity c.dry_days avg_deficit }

/-- The `for i, (date, precip) in enumerate(...)` loop of
`detect_drought_periods`, written as recursion on the remaining series
with the running index `i` explicit. -/
def detectGo (dry_threshold : ℚ) (i : ℕ) (rest : List ℚ)
    (periods : List DroughtPeriod) (cur : Option OpenPeriod) :
    List DroughtPeriod × Option OpenPeriod :=
  match rest with
  | [] => (periods, cur)
  | precip :: xs =>
    if precip < dry_threshold then
      match cur with
      | none =>
          detectGo dry_threshold (i + 1) xs periods
            (some { start_index := i, dry_days := 1, total_precip := precip })
      | some c =>
          detectGo dry_threshold (i + 1) xs periods
            (some { c with dry_days := c.dry_days + 1,
                           total_precip := c.total_precip + precip })
    else
      match cur with
      | none => detectGo dry_threshold (i + 1) xs periods none
      | some c =>
          detectGo dry_threshold (i + 1) xs
            (if 3 ≤ c.dry_days then
              periods ++ [closePeriod dry_threshold c (i - 1)]
            else periods)
            none

/-- `detect_drought_periods` (app.py): run the loop, then close and emit
the period still open at the end of the data, subject to the same
`dry_days >= 3` rule. -/
def detect_drought_periods (precipitation : List ℚ)
    (dry_threshold : ℚ := 1/10) : List DroughtPeriod :=
  let r := detectGo dry_threshold 0 precipitation [] none
  match r.2 with
  | some c =>
      if 3 ≤ c.dry_days then
        r.1 ++ [closePeriod dry_threshold c (precipitation.length - 1)]
      else r.1
  | none => r.1

/-- Loop invariant: the loop only ever appends periods with
`dry_days ≥ 3`. -/
theorem detectGo_min_dry_days (dry_threshold : ℚ) :
    ∀ (rest : List ℚ) (i : ℕ) (periods : List DroughtPeriod)
      (cur : Option OpenPeriod),
      (∀ pd ∈ periods, 3 ≤ pd.dry_days) →
      ∀ pd ∈ (detectGo dry_threshold i rest periods cur).1, 3 ≤ pd.dry_days := by
  intro rest
  induction rest with
  | nil => intro i periods cur h pd hpd; exact h pd hpd
  | cons x xs ih =>
      intro i periods cur h pd hpd
      cases cur with
      | none =>
          rw [detectGo] at hpd
          split at hpd
          · exact ih _ _ _ h pd hpd
          · exact ih _ _ _ h pd hpd
      | some c =>
          rw [detectGo] at hpd
          split at hpd
          · exact ih _ _ _ h pd hpd
          · refine ih _ _ _ ?_ pd hpd
            intro q hq
            split at hq
            next hc =>
              rcases List.mem_append.mp hq with hq | hq
              · exact h q hq
              · rcases List.mem_singleton.mp hq with rfl
                simpa [closePeriod] using hc
            next => exact h q hq

/-- On an all-dry remainder the loop closes nothing and just extends the
open period by the length (and sum) of the remainder. -/
theorem detectGo_all_dry (dry_threshold : ℚ) :
    ∀ (rest : List ℚ) (i : ℕ) (periods : List DroughtPeriod)
      (c : OpenPeriod), (∀ x ∈ rest, x < dry_threshold) →
      detectGo dry_threshold i rest periods (some c) =
        (periods, some { c with dry_days := c.dry_days + rest.length,
                                total_precip := c.total_precip + rest.sum }) := by
  intro rest
  induction rest with
  | nil => intro i periods c _; simp [detectGo]
  | cons x xs ih =>
      intro i periods c hdry
      rw [detectGo, if_pos (hdry x (List.mem_cons_self x xs))]
      rw [ih (i + 1) periods _ (fun y hy => hdry y (List.mem_cons_of_mem x hy))]
      simp only [List.length_cons, List.sum_cons, Prod.mk.injEq,
        Option.some.injEq, OpenPeriod.mk.injEq, true_and]
      exact ⟨by omega, by ring⟩

/-- C4: `detect_drought_periods` never emits a period with fewer than 3
dry days; and on an all-dry series of length at least 3 it emits exactly
one period whose `dry_days` equals the series length. -/
theorem C4_period_segmenter (dry_threshold : ℚ) (p : List ℚ) :
    (∀ pd ∈ detect_drought_periods p dry_threshold, 3 ≤ pd.dry_days) ∧
    (3 ≤ p.length → (∀ x ∈ p, x < dry_threshold) →
      ∃ pd, detect_drought_periods p dry_threshold = [pd] ∧
        pd.dry_days = p.length) := by
  constructor
  · intro pd hpd
    simp only [detect_drought_periods] at hpd
    have hloop := detectGo_min_dry_days dry_threshold p 0 [] none
      (by intro q hq; simp at hq)
    split at hpd
    next c hc =>
      split at hpd
      next h3 =>
        rcases List.mem_append.mp hpd with h | h
        · exact hloop pd h
        · rcases List.mem_singleton.mp h with rfl
          simpa [closePeriod] using h3
      next => exact hloop pd hpd
    next => exact hloop pd hpd
  · intro hlen hdry
    cases p with
    | nil => simp at hlen
    | cons x xs =>
      have hx : x < dry_threshold := hdry x (List.mem_cons_self x xs)
      have hxs : ∀ y ∈ xs, y < dry_threshold :=
        fun y hy => hdry y (List.mem_cons_of_mem x hy)
      have hrun : detectGo dry_threshold 0 (x :: xs) [] none =
          ([], some { start_index := 0, dry_days := 1 + xs.length,
                      total_precip := x + xs.sum }) := by
        rw [detectGo, if_pos hx,
          detectGo_all_dry dry_threshold xs 1 []
            { start_index := 0, dry_days := 1, total_precip := x } hxs]
      refine ⟨closePeriod dry_threshold
        { start_index := 0, dry_days := 1 + xs.length,
          total_precip := x + xs.sum } ((x :: xs).length - 1), ?_, ?_⟩
      · simp only [detect_drought_periods]
        rw [hrun]
        simp only [List.length_cons] at hlen ⊢
        rw [if_pos (by omega)]
        simp
      · simp [closePeriod, List.length_cons]
        omega

/-- C4 witness: on the all-dry series `[0,0,0,0]` (threshold 0.1) exactly
one period is emitted and its dry-day count is 4. -/
theorem C4_period_segmenter_witness :
    (detect_drought_periods ([0, 0, 0, 0] : List ℚ) (1/10)).map
      (fun pd => pd.dry_days) = [4] := by
  obtain ⟨pd, hEq, hDays⟩ :=
    (C4_period_segmenter (1/10) ([0, 0, 0, 0] : List ℚ)).2
      (by norm_num)
      (by intro x hx; simp only [List.mem_cons, List.not_mem_nil, or_false] at hx
          rcases hx with rfl | rfl | rfl | rfl <;> norm_num)
  rw [hEq]
  simp [hDays]

/- ── drought_monitoring/utils/alert_generator.py : fallback text + parser ── -/

/-- The per-risk-level template entries of `risk_templates` inside
`generate_fallback_group_alert`. -/
structure AlertTemplate where
  titre : String
  evaluation : String
  zones_prioritaires : List String
  actions : List String
  periode : String
  urgence : String
deriving Repr, DecidableEq

/-- `risk_templates` dictionary of `generate_fallback_group_alert`, with
the `.get(risk_level, risk_templates['Modéré'])` default.  The float
interpolation `{avg_score:.1f}` is received as the already-formatted
string `avgScoreStr`. -/
def risk_templates (group_name group_type : String) (risk_level : String)
    (avgScoreStr : String) : AlertTemplate :=
  if risk_level = "Très Élevé" then
    { titre := "CRISE - " ++ group_type ++ " " ++ group_name
      evaluation := "Situation de crise avec un risque moyen de " ++
        avgScoreStr ++ "%. Intervention coordonnée requise."
      zones_prioritaires :=
        ["Toute la zone affectée", "Secteurs agricoles prioritaires",
         "Zones de concentration population"]
      actions :=
        ["Plan d\x27urgence régional activé",
         "Coordination inter-services renforcée",
         "Ressources mutualisées", "Communication unifiée"]
      periode := "Immédiate - 30 jours"
      urgence := "CRITIQUE" }
  else if risk_level = "Élevé" then
    { titre := "ALERTE - " ++ group_type ++ " " ++ group_name
      evaluation := "Risque élevé (" ++ avgScoreStr ++
        "%) nécessitant une action coordonnée."
      zones_prioritaires :=
        ["Sous-régions les plus affectées", "Bassins versants critiques"]
      actions :=
        ["Surveillance renforcée", "Planification des restrictions",
         "Coordination locale"]
      periode := "15-45 jours"
      urgence := "ÉLEVÉE" }
  else
    { titre := "VIGILANCE - " ++ group_type ++ " " ++ group_name
      evaluation := "Situation sous surveillance (" ++ avgScoreStr ++ "%)."
      zones_prioritaires := ["Points chauds identifiés"]
      actions := ["Monitoring continu", "Préparation des plans"]
      periode := "1-2 mois"
      urgence := "MODÉRÉE" }

/-- `generate_fallback_group_alert` (alert_generator.py).  The returned
text is the Python triple-quoted f-string verbatim: a leading newline,
each content line indented with eight spaces, and a trailing indented
blank line.  `avg_score` arrives as its `.1f` rendering `avgScoreStr`,
and of `indicators` only `len(indicators)` is interpolated, received
here as `numIndicators`. -/
def generate_fallback_group_alert (group_name group_type risk_level : String)
    (avgScoreStr : String) (numIndicators : ℕ) : String :=
  let template := risk_templates group_name group_type risk_level avgScoreStr
  "\n        TITRE_GROUPE: " ++ template.titre ++
  "\n        ÉVALUATION: " ++ template.evaluation ++
    " Basé sur l\x27analyse de " ++ toString numIndicators ++
    " localités échantillons." ++
  "\n        ZONES_PRIORITAIRES: " ++
    String.intercalate "; " template.zones_prioritaires ++
  "\n        ACTIONS_COORDONNÉES: " ++
    String.intercalate "; " template.actions ++
  "\n        PÉRIODE: " ++ template.periode ++
  "\n        URGENCE: " ++ template.urgence ++
  "\n        "

/-- Python `str.split(sep)` on a one-character separator (both call sites
of the parser split on a single character): occurrences of the separator
delimit the pieces and empty pieces are kept. -/
def splitOnCharList (sep : Char) : List Char → List (List Char)
  | [] => [[]]
  | c :: rest =>
    if c = sep then [] :: splitOnCharList sep rest
    else
      match splitOnCharList sep rest with
      | [] => [[c]]
      | h :: t => (c :: h) :: t

/-- Python `s.split(sep)` for a one-character separator. -/
def pySplit (s : String) (sep : Char) : List String :=
  (splitOnCharList sep s.data).map (fun l => ⟨l⟩)

/-- Python `s.startswith(pre)`. -/
def pyStartsWith (s pre : String) : Bool :=
  pre.data.isPrefixOf s.data

/-- Python `s.strip()`: drop whitespace from both ends. -/
def pyStrip (s : String) : String :=
  ⟨((s.data.dropWhile Char.isWhitespace).reverse.dropWhile
      Char.isWhitespace).reverse⟩

/-- Worker for Python `s.replace(pat, rep)` (pat non-empty at every call
site); the fuel argument, instantiated with the length of the string,
only makes the recursion structural. -/
def replaceListAux (pat rep : List Char) : ℕ → List Char → List Char
  | _, [] => []
  | 0, l => l
  | fuel + 1, c :: rest =>
    if pat.isPrefixOf (c :: rest) then
      rep ++ replaceListAux pat rep fuel ((c :: rest).drop pat.length)
    else
      c :: replaceListAux pat rep fuel rest

/-- Python `s.replace(pat, rep)`: replace every occurrence. -/
def pyReplace (s pat rep : String) : String :=
  ⟨replaceListAux pat.data rep.data s.data.length s.data⟩

/-- The dictionary built by `parse_group_alert_message`: each tagged field
is absent until its line-prefix match assigns it. -/
structure ParsedGroupAlert where
  titre_groupe : Option String
  evaluation : Option String
  zones_prioritaires : Option (List String)
  actions_coordonnees : Option (List String)
  periode : Option String
  urgence : Option String
deriving Repr, DecidableEq

/-- The empty dictionary `parsed_alert = {}` before any line matches. -/
def emptyParsedGroupAlert : ParsedGroupAlert :=
  { titre_groupe := none, evaluation := none, zones_prioritaires := none,
    actions_coordonnees := none, periode := none, urgence := none }

/-- `parse_group_alert_message` (alert_generator.py): split on newlines
and match each line against the six uppercase tag prefixes. -/
def parse_group_alert_message (alert_text : String) : ParsedGroupAlert :=
  (pySplit alert_text '\n').foldl
    (fun pa line =>
      if pyStartsWith line "TITRE_GROUPE:" then
        { pa with titre_groupe := some (pyStrip (pyReplace line "TITRE_GROUPE:" "")) }
      else if pyStartsWith line "ÉVALUATION:" then
        { pa with evaluation := some (pyStrip (pyReplace line "ÉVALUATION:" "")) }
      else if pyStartsWith line "ZONES_PRIORITAIRES:" then
        let zones_text := pyStrip (pyReplace line "ZONES_PRIORITAIRES:" "")
        { pa with zones_prioritaires := some ((pySplit zones_text ';').map pyStrip) }
      else if pyStartsWith line "ACTIONS_COORDONNÉES:" then
        let actions_text := pyStrip (pyReplace line "ACTIONS_COORDONNÉES:" "")
        { pa with actions_coordonnees := some ((pySplit actions_text ';').map pyStrip) }
      else if pyStartsWith line "PÉRIODE:" then
        { pa with periode := some (pyStrip (pyReplace line "PÉRIODE:" "")) }
      else if pyStartsWith line "URGENCE:" then
        { pa with urgence := some (pyStrip (pyReplace line "URGENCE:" "")) }
      else pa)
    emptyParsedGroupAlert

/-- The four group risk levels produced by the group classification in
`generate_group_alert`. -/
inductive GroupRiskLevel where
  | tresEleve
  | eleve
  | modere
  | faible
deriving DecidableEq, Repr

/-- The French label of a group risk level. -/
def GroupRiskLevel.label : GroupRiskLevel → String
  | .tresEleve => "Très Élevé"
  | .eleve => "Élevé"
  | .modere => "Modéré"
  | .faible => "Faible"

set_option maxRecDepth 100000 in
/-- C1: parsing the deterministic fallback alert recovers none of the six
tagged fields — for every group risk level the generator indents every
line with eight spaces, so no line satisfies the parser's
`startswith` prefix tests and the parse result is the empty dictionary
(every field absent, not all six present and non-empty). -/
theorem C1_fallback_roundtrip_empty (lvl : GroupRiskLevel) :
    parse_group_alert_message
      (generate_fallback_group_alert "Centre" "région" lvl.label "75.0" 3) =
    emptyParsedGroupAlert := by
  cases lvl <;> decide

/- ── alert_generator.py : group aggregation ─────────────────────────── -/

/-- One entry of `group_indicators` in `generate_group_alert`: the result
of successfully analyzing one sampled locality. -/
structure SampleIndicator where
  localite : String
  risk_level : String
  risk_score : ℚ
  spi : ℚ
  deficit : ℚ
  dry_days : ℚ
deriving Repr, DecidableEq

/-- `generate_group_recommendations` result dictionary. -/
structure GroupRecommendations where
  coordination : String
  communication : String
  ressources : String
  surveillance : String
deriving Repr, DecidableEq

/-- `generate_group_recommendations` (alert_generator.py); the
`group_type` argument is accepted but unused, as in the source, and the
`.get(risk_level, recommendations['Modéré'])` default applies. -/
def generate_group_recommendations (risk_level group_type : String) :
    GroupRecommendations :=
  if risk_level = "Très Élevé" then
    { coordination := "Activation cellule de crise régionale"
      communication := "Alerte unifiée à toute la population"
      ressources := "Mobilisation ressources d\x27urgence"
      surveillance := "Monitoring horaire des indicateurs" }
  else if risk_level = "Élevé" then
    { coordination := "Réunion hebdomadaire des acteurs"
      communication := "Information ciblée aux agriculteurs"
      ressources := "Prépositionnement des ressources"
      surveillance := "Surveillance quotidienne renforcée" }
  else if risk_level = "Faible" then
    { coordination := "Réunion mensuelle"
      communication := "Information standard"
      ressources := "Maintenance routine"
      surveillance := "Contrôle périodique" }
  else
    { coordination := "Point bi-hebdomadaire"
      communication := "Bulletin d\x27information régulier"
      ressources := "Évaluation des stocks"
      surveillance := "Monitoring standard" }

/-- Python `f"{q:.1f}"` modelled on rationals: round to one decimal and
print `d.d` (the source only interpolates this rendering into alert
text, which no claim inspects digit by digit). -/
def formatFixed1 (q : ℚ) : String :=
  let n : ℤ := round (q * 10)
  let sign := if n < 0 then "-" else ""
  sign ++ toString (n.natAbs / 10) ++ "." ++ toString (n.natAbs % 10)

/-- `generate_group_ai_alert` (alert_generator.py) in the engine's
deterministic configuration: `os.getenv('DEEPSEEK_API_KEY')` is absent
(the external generative text source is out of scope), so the method
returns the fallback alert immediately. -/
def generate_group_ai_alert (group_name group_type : String)
    (numIndicators : ℕ) (risk_level : String) (avgScoreStr : String) : String :=
  generate_fallback_group_alert group_name group_type risk_level
    avgScoreStr numIndicators

/-- The group alert record returned by `generate_group_alert`
(alert_generator.py).  `date_generation` (wall clock) is not modelled. -/
structure GroupAlert where
  groupe_nom : String
  groupe_type : String
  localites_echantillon : List String
  total_localites : ℕ
  periode_analyse : String
  niveau_risque_groupe : String
  score_risque_moyen : ℚ
  ratio_risque_eleve : ℚ
  indicateurs_echantillon : List SampleIndicator
  alerte : String
  recommandations_prioritaires : GroupRecommendations
deriving Repr, DecidableEq

/-- `generate_group_alert` (alert_generator.py).  The per-sample loop is
received as `analyses`: one entry per sampled locality, `none` when that
sample failed (exception or missing climate data) and was skipped, so
`group_indicators = analyses.filterMap id` is exactly the list built by
the loop.  With no successful sample the function returns `None`. -/
def generate_group_alert (group_name group_type : String)
    (group_localities_count : ℕ) (analysis_period : String)
    (analyses : List (Option SampleIndicator)) : Option GroupAlert :=
  let group_indicators := analyses.filterMap id
  let high_risk_count := group_indicators.countP
    (fun s => s.risk_level == "Élevé" || s.risk_level == "Très Élevé")
  let total_risk_score := (group_indicators.map (fun s => s.risk_score)).sum
  if group_indicators.isEmpty then none
  else
    let avg_risk_score := total_risk_score / (group_indicators.length : ℚ)
    let high_risk_ratio := (high_risk_count : ℚ) / (group_indicators.length : ℚ)
    let group_risk_level :=
      if 7/10 ≤ high_risk_ratio ∨ 70 ≤ avg_risk_score then "Très Élevé"
      else if 4/10 ≤ high_risk_ratio ∨ 50 ≤ avg_risk_score then "Élevé"
      else if 2/10 ≤ high_risk_ratio ∨ 30 ≤ avg_risk_score then "Modéré"
      else "Faible"
    some
      { groupe_nom := group_name
        groupe_type := group_type
        localites_echantillon := group_indicators.map (fun s => s.localite)
        total_localites := group_localities_count
        periode_analyse := analysis_period
        niveau_risque_groupe := group_risk_level
        score_risque_moyen := avg_risk_score
        ratio_risque_eleve := high_risk_ratio
        indicateurs_echantillon := group_indicators
        alerte := generate_group_ai_alert group_name group_type
          group_indicators.length group_risk_level (formatFixed1 avg_risk_score)
        recommandations_prioritaires :=
          generate_group_recommendations group_risk_level group_type }

/-- One group handed to `generate_alerts_by_group` by the
`localities_df.groupby(...)` iteration. -/
structure GroupInput where
  name : String
  gtype : String
  localities_count : ℕ
  analyses : List (Option SampleIndicator)

/-- `generate_alerts_by_group` (alert_generator.py): per group, append
the group alert when `generate_group_alert` returns a truthy value
(a record), skip the group when it returns `None`. -/
def generate_alerts_by_group (analysis_period : String)
    (groups : List GroupInput) : List GroupAlert :=
  groups.filterMap
    (fun g => generate_group_alert g.name g.gtype g.localities_count
      analysis_period g.analyses)

/-- C6: with at least one successfully analyzed sample and every sample
at risk level Élevé or Très Élevé (`high_risk_ratio = 1`), the group is
classified Très Élevé whatever the average risk score. -/
theorem C6_unanimous_high_risk_group
    (group_name group_type analysis_period : String) (total : ℕ)
    (analyses : List (Option SampleIndicator))
    (hne : analyses.filterMap id ≠ [])
    (hall : ∀ s ∈ analyses.filterMap id,
      s.risk_level = "Élevé" ∨ s.risk_level = "Très Élevé") :
    (generate_group_alert group_name group_type total analysis_period
        analyses).map (fun a => a.niveau_risque_groupe) =
      some "Très Élevé" := by
  have hlen : 0 < (analyses.filterMap id).length := List.length_pos.mpr hne
  have hcount : (analyses.filterMap id).countP
      (fun s => s.risk_level == "Élevé" || s.risk_level == "Très Élevé") =
      (analyses.filterMap id).length := by
    refine List.countP_eq_length.mpr ?_
    intro s hs
    rcases hall s hs with h | h <;> simp [h]
  have hempty : (analyses.filterMap id).isEmpty = false := by
    simp [List.isEmpty_iff, hne]
  have hratio :
      ((analyses.filterMap id).countP
          (fun s => s.risk_level == "Élevé" || s.risk_level == "Très Élevé") : ℚ) /
        ((analyses.filterMap id).length : ℚ) = 1 := by
    rw [hcount]
    exact div_self (by exact_mod_cast Nat.pos_iff_ne_zero.mp hlen)
  simp only [generate_group_alert, hempty, Bool.false_eq_true, if_false,
    hratio, Option.map_some]
  rw [if_pos (Or.inl (by norm_num))]
  rfl

/-- C6 witness: a single sampled locality at Très Élevé yields group
level Très Élevé. -/
theorem C6_unanimous_high_risk_group_witness :
    (generate_group_alert "Adamaoua" "région" 5 "30 jours"
        [some { localite := "Ngaoundéré", risk_level := "Très Élevé",
                risk_score := 80, spi := -2, deficit := 50, dry_days := 20 }]).map
      (fun a => a.niveau_risque_groupe) = some "Très Élevé" :=
  C6_unanimous_high_risk_group "Adamaoua" "région" "30 jours" 5
    [some { localite := "Ngaoundéré", risk_level := "Très Élevé",
            risk_score := 80, spi := -2, deficit := 50, dry_days := 20 }]
    (by simp) (by simp)

/-- C7: a group whose samples all failed (zero successful analyses)
makes `generate_group_alert` return `None`, and
`generate_alerts_by_group` silently omits such a group from the alert
collection. -/
theorem C7_zero_sample_group_omitted
    (group_name group_type analysis_period : String) (total : ℕ)
    (analyses : List (Option SampleIndicator))
    (h : ∀ a ∈ analyses, a = none)
    (gs1 gs2 : List GroupInput) :
    generate_group_alert group_name group_type total analysis_period
        analyses = none ∧
    generate_alerts_by_group analysis_period
        (gs1 ++ { name := group_name, gtype := group_type,
                  localities_count := total, analyses := analyses } :: gs2) =
      generate_alerts_by_group analysis_period (gs1 ++ gs2) := by
  have hfm : analyses.filterMap id = [] := by
    rw [List.filterMap_eq_nil_iff]
    intro a ha
    simpa using h a ha
  have hnone : generate_group_alert group_name group_type total
      analysis_period analyses = none := by
    simp only [generate_group_alert, hfm]
    rfl
  refine ⟨hnone, ?_⟩
  simp only [generate_alerts_by_group, List.filterMap_append,
    List.filterMap_cons, hnone]

/-- A sample locality result used by the C7 witness. -/
def sampleKribi : SampleIndicator :=
  { localite := "Kribi", risk_level := "Faible", risk_score := 10,
    spi := 0, deficit := 0, dry_days := 0 }

/-- A healthy group used by the C7 witness. -/
def groupSud : GroupInput :=
  { name := "Sud", gtype := "région", localities_count := 1,
    analyses := [some sampleKribi] }

/-- The all-failed group used by the C7 witness. -/
def groupNord : GroupInput :=
  { name := "Nord", gtype := "région", localities_count := 2,
    analyses := [none, none] }

/-- C7 witness: a group of two failed samples is omitted while a healthy
group is kept. -/
theorem C7_zero_sample_group_omitted_witness :
    generate_group_alert "Nord" "région" 2 "30 jours" [none, none] = none ∧
    generate_alerts_by_group "30 jours" ([] ++ groupNord :: [groupSud]) =
      generate_alerts_by_group "30 jours" ([] ++ [groupSud]) :=
  C7_zero_sample_group_omitted "Nord" "région" "30 jours" 2 [none, none]
    (by simp) [] [groupSud]

/- ── drought_calculator.py : calculate_spi ──────────────────────────── -/

/-- `np.mean` on a rational series (0 on the empty list, where the source
never reads the result). -/
def npMean (l : List ℚ) : ℚ := l.sum / (l.length : ℚ)

/-- The squared-deviation mean under `np.std`. -/
def npVar (l : List ℚ) : ℚ :=
  ((l.map (fun x => (x - npMean l) ^ 2)).sum) / (l.length : ℚ)

/-- `np.std` (population standard deviation). -/
noncomputable def npStd (l : List ℚ) : ℝ := Real.sqrt ((npVar l : ℚ) : ℝ)

/-- `np.std(l) if len(l) > 1 else 1`, the guarded standard deviation
computed in both SPI branches. -/
noncomputable def npStdOr1 (l : List ℚ) : ℝ :=
  if 1 < l.length then npStd l else 1

/-- The per-point value of the short-series SPI branch:
`(x - mean)/std if std > 0 else 0`. -/
noncomputable def spiShortValue (p : List ℚ) (x : ℚ) : ℝ :=
  if 0 < npStdOr1 p then ((x : ℝ) - ((npMean p : ℚ) : ℝ)) / npStdOr1 p else 0

/-- The trailing window of `calculate_spi`: `precipitation[:i+1]` while
`i < period - 1`, else `precipitation[i-period+1:i+1]`. -/
def spiWindow (p : List ℚ) (period i : ℕ) : List ℚ :=
  if i < period - 1 then p.take (i + 1) else (p.drop (i + 1 - period)).take period

/-- The SPI value stored for index `i` on the long-series branch: the
gamma-fit pipeline when the fit succeeds (with the non-finite result
already replaced by 0 inside `gammaFit`), else the documented z-score
fallback `(total - mean)/std if std > 0 else 0` over the window. -/
noncomputable def spiLongEntry (gammaFit : List ℚ → ℚ → Option ℝ)
    (p : List ℚ) (period i : ℕ) : ℝ :=
  let window := spiWindow p period i
  let total_precip := window.sum
  match gammaFit window total_precip with
  | some v => v
  | none =>
      if 0 < npStdOr1 window then
        ((total_precip : ℝ) - ((npMean window : ℚ) : ℝ)) / npStdOr1 window
      else 0

/-- `calculate_spi` (drought_calculator.py).  The result dictionary
`spi_values` is the association list index ↦ SPI value; the unused
`dates` argument is dropped.  Short series (< 7 points) get a z-score per
point; longer series get an entry only when the trailing window holds at
least 7 points. -/
noncomputable def calculate_spi (gammaFit : List ℚ → ℚ → Option ℝ)
    (p : List ℚ) (period : ℕ := 30) : List (ℕ × ℝ) :=
  if p.length < 7 then
    (List.range p.length).map (fun i => (i, spiShortValue p (p.getD i 0)))
  else
    (List.range p.length).filterMap (fun i =>
      if 7 ≤ (spiWindow p period i).length then
        some (i, spiLongEntry gammaFit p period i)
      else none)

/-- The execution in which every `stats.gamma.fit` call raises and the
source takes its z-score fallback (spec §7(b): a legitimate, silent
degradation). -/
def gammaFitNone : List ℚ → ℚ → Option ℝ := fun _ _ => none

/-- `spi_values[i]` with default 0, for reading one entry of the SPI
mapping. -/
noncomputable def spiAt (m : List (ℕ × ℝ)) (i : ℕ) : ℝ :=
  ((m.lookup i).getD 0)

/-- A guarded `filterMap` producing key-value pairs is the `map` over the
`filter`. -/
theorem filterMap_ite_eq_map_filter {β : Type} (l : List ℕ) (c : ℕ → Prop)
    [DecidablePred c] (v : ℕ → β) :
    l.filterMap (fun i => if c i then some (i, v i) else none) =
      (l.filter (fun i => decide (c i))).map (fun i => (i, v i)) := by
  induction l with
  | nil => rfl
  | cons a t ih => by_cases h : c a <;> simp [h, ih]

/-- Looking up a key of a keyed `map` returns its value. -/
theorem lookup_map_self {β : Type} (l : List ℕ) (v : ℕ → β) (j : ℕ)
    (hj : j ∈ l) : ((l.map (fun i => (i, v i))).lookup j) = some (v j) := by
  induction l with
  | nil => cases hj
  | cons a t ih =>
      by_cases h : j = a
      · subst h; simp [List.lookup]
      · rcases List.mem_cons.mp hj with h1 | h1
        · exact absurd h1 h
        · simpa [List.lookup, beq_false_of_ne h] using ih h1

/-- The window at a valid index of a series with at least 7 points has
`min (i+1) 30` points (period 30). -/
theorem spiWindow_length (p : List ℚ) (i : ℕ) (hi : i < p.length) :
    (spiWindow p 30 i).length = min (i + 1) 30 := by
  unfold spiWindow
  split
  · simp only [List.length_take]
    omega
  · simp only [List.length_take, List.length_drop]
    omega

/-- Keys present in the SPI mapping of a series with at least 7 points:
exactly the indices from 6 up. -/
theorem calculate_spi_keys (g : List ℚ → ℚ → Option ℝ) (p : List ℚ)
    (h7 : 7 ≤ p.length) :
    (calculate_spi g p 30).map Prod.fst =
      (List.range p.length).filter (fun i => decide (6 ≤ i)) := by
  unfold calculate_spi
  rw [if_neg (by omega)]
  rw [filterMap_ite_eq_map_filter, List.map_map]
  rw [show (Prod.fst ∘ fun i => (i, spiLongEntry g p 30 i)) = id from rfl,
    List.map_id]
  refine List.filter_congr ?_
  intro i hi
  rw [spiWindow_length p i (List.mem_range.mp hi)]
  refine decide_eq_decide.mpr ?_
  omega

/-- C2 (amended): for a series of length at least 7 the SPI mapping of
`calculate_spi` contains an entry exactly for the indices `6 ≤ i < len`
(the indices whose trailing window has at least 7 points); the first six
indices are always omitted. -/
theorem C2_spi_keys_from_index_six (g : List ℚ → ℚ → Option ℝ)
    (p : List ℚ) (h7 : 7 ≤ p.length) :
    (calculate_spi g p 30).map Prod.fst =
      (List.range p.length).filter (fun i => decide (6 ≤ i)) :=
  calculate_spi_keys g p h7

/-- C2 witness: an 8-point series has SPI entries exactly at indices 6
and 7. -/
theorem C2_spi_keys_from_index_six_witness :
    (calculate_spi gammaFitNone ([0, 0, 0, 0, 0, 0, 0, 0] : List ℚ) 30).map
      Prod.fst = [6, 7] := by
  rw [C2_spi_keys_from_index_six gammaFitNone _ (by decide)]
  decide

/-- C2 counterexample: on the 7-point series `[1,0,0,0,0,0,0]` the SPI
mapping has no entry at index 0, refuting the claim that every index
`0..len-1` is present. -/
theorem C2_spi_index_zero_omitted :
    ¬ (0 : ℕ) ∈ (calculate_spi gammaFitNone
      ([1, 0, 0, 0, 0, 0, 0] : List ℚ) 30).map Prod.fst := by
  rw [calculate_spi_keys gammaFitNone _ (by decide)]
  decide

/-- A list with a member differing from its mean has positive variance. -/
theorem npVar_pos {p : List ℚ} {x : ℚ} (hx : x ∈ p) (hne : x ≠ npMean p) :
    0 < npVar p := by
  have hlen : 0 < p.length := List.length_pos.mpr (by rintro rfl; cases hx)
  unfold npVar
  refine div_pos ?_ (by exact_mod_cast hlen)
  have hterm : 0 < (x - npMean p) ^ 2 :=
    pow_two_pos_of_ne_zero (sub_ne_zero.mpr hne)
  refine lt_of_lt_of_le hterm ?_
  refine List.single_le_sum ?_ _ (List.mem_map.mpr ⟨x, hx, rfl⟩)
  intro y hy
  rcases List.mem_map.mp hy with ⟨z, _, rfl⟩
  exact sq_nonneg _

/-- C8 (amended): on the short-series branch (< 7 points), each SPI value
is positive where precipitation is strictly above the series mean and
negative where strictly below — the claim as stated fails on the
long-series branch, which compares the windowed total (not the point)
against the window statistics. -/
theorem C8_spi_sign_short_series (g : List ℚ → ℚ → Option ℝ) (p : List ℚ)
    (i : ℕ) (hshort : p.length < 7) (hi : i < p.length) :
    (npMean p < p.getD i 0 → 0 < spiAt (calculate_spi g p 30) i) ∧
    (p.getD i 0 < npMean p → spiAt (calculate_spi g p 30) i < 0) := by
  have hmem : i ∈ List.range p.length := List.mem_range.mpr hi
  have hlookup : spiAt (calculate_spi g p 30) i =
      spiShortValue p (p.getD i 0) := by
    unfold calculate_spi
    rw [if_pos hshort]
    unfold spiAt
    rw [lookup_map_self (List.range p.length) _ i hmem]
    rfl
  rw [hlookup]
  have hxmem : p.getD i 0 ∈ p := by
    rw [List.getD_eq_getElem p 0 hi]
    exact List.getElem_mem hi
  constructor
  · intro hgt
    have hstd : 0 < npStdOr1 p := by
      unfold npStdOr1
      split
      · exact Real.sqrt_pos.mpr
          (by exact_mod_cast npVar_pos hxmem (ne_of_gt hgt))
      · norm_num
    unfold spiShortValue
    rw [if_pos hstd]
    refine div_pos ?_ hstd
    have : ((npMean p : ℚ) : ℝ) < ((p.getD i 0 : ℚ) : ℝ) := by
      exact_mod_cast hgt
    linarith
  · intro hlt
    have hstd : 0 < npStdOr1 p := by
      unfold npStdOr1
      split
      · exact Real.sqrt_pos.mpr
          (by exact_mod_cast npVar_pos hxmem (ne_of_lt hlt))
      · norm_num
    unfold spiShortValue
    rw [if_pos hstd]
    refine div_neg_of_neg_of_pos ?_ hstd
    have : ((p.getD i 0 : ℚ) : ℝ) < ((npMean p : ℚ) : ℝ) := by
      exact_mod_cast hlt
    linarith

/-- C8 witness: in the 3-point series `[5,1,0]`, the first point lies
above the mean 2 and its SPI value is positive. -/
theorem C8_spi_sign_short_series_witness :
    0 < spiAt (calculate_spi gammaFitNone ([5, 1, 0] : List ℚ) 30) 0 :=
  (C8_spi_sign_short_series gammaFitNone ([5, 1, 0] : List ℚ) 0
    (by decide) (by decide)).1
    (by norm_num [npMean, List.sum_cons, List.sum_nil, List.getD])

/-- C8 counterexample: on `[1,0,0,0,0,0,0]` (length 7, long-series
branch, gamma fit falling back to the windowed z-score) the SPI mapping
has an entry at index 6 whose precipitation 0 is strictly below the
series mean 1/7, yet the stored SPI value is `√6 > 0` — not negative as
the claim requires. -/
theorem C8_spi_sign_fails_long_series :
    ([1, 0, 0, 0, 0, 0, 0] : List ℚ).getD 6 0 <
      npMean ([1, 0, 0, 0, 0, 0, 0] : List ℚ) ∧
    spiAt (calculate_spi gammaFitNone ([1, 0, 0, 0, 0, 0, 0] : List ℚ) 30) 6 =
      Real.sqrt 6 ∧
    0 < Real.sqrt 6 := by
  have hsqrt6 : (0 : ℝ) < Real.sqrt 6 := Real.sqrt_pos.mpr (by norm_num)
  refine ⟨?_, ?_, hsqrt6⟩
  · norm_num [npMean, List.sum_cons, List.sum_nil, List.getD]
  · have hfilter : (List.range 7).filter
        (fun i => decide (7 ≤ (spiWindow ([1, 0, 0, 0, 0, 0, 0] : List ℚ) 30 i).length)) =
        [6] := by decide
    have hspi : calculate_spi gammaFitNone ([1, 0, 0, 0, 0, 0, 0] : List ℚ) 30 =
        [(6, spiLongEntry gammaFitNone ([1, 0, 0, 0, 0, 0, 0] : List ℚ) 30 6)] := by
      unfold calculate_spi
      rw [if_neg (by decide), filterMap_ite_eq_map_filter,
        show ([1, 0, 0, 0, 0, 0, 0] : List ℚ).length = 7 by decide, hfilter]
      rfl
    rw [hspi]
    have hwin : spiWindow ([1, 0, 0, 0, 0, 0, 0] : List ℚ) 30 6 =
        ([1, 0, 0, 0, 0, 0, 0] : List ℚ) := by decide
    have hvar : npVar ([1, 0, 0, 0, 0, 0, 0] : List ℚ) = 6 / 49 := by
      norm_num [npVar, npMean, List.sum_cons, List.sum_nil]
    have hstd : npStdOr1 ([1, 0, 0, 0, 0, 0, 0] : List ℚ) = Real.sqrt 6 / 7 := by
      unfold npStdOr1 npStd
      rw [if_pos (by decide), hvar]
      rw [show (((6 / 49 : ℚ) : ℝ)) = ((6 : ℝ) / 49) by push_cast; ring]
      rw [show (6 : ℝ) / 49 = (Real.sqrt 6 / 7) ^ 2 by
        rw [div_pow, Real.sq_sqrt (by norm_num : (0:ℝ) ≤ 6)]; norm_num]
      exact Real.sqrt_sq (by positivity)
    have hstdpos : 0 < npStdOr1 ([1, 0, 0, 0, 0, 0, 0] : List ℚ) := by
      rw [hstd]; positivity
    unfold spiLongEntry
    rw [hwin]
    simp only [gammaFitNone]
    rw [if_pos hstdpos, hstd]
    have hsum : ([1, 0, 0, 0, 0, 0, 0] : List ℚ).sum = 1 := by
      norm_num [List.sum_cons, List.sum_nil]
    have hmean : npMean ([1, 0, 0, 0, 0, 0, 0] : List ℚ) = 1 / 7 := by
      norm_num [npMean, List.sum_cons, List.sum_nil]
    rw [hsum, hmean]
    rw [show (((1 : ℚ) : ℝ) - (((1 / 7 : ℚ)) : ℝ)) = (6 : ℝ) / 7 by
      push_cast; ring]
    rw [spiAt, List.lookup]
    simp only [beq_self_eq_true]
    rw [Option.getD_some]
    field_simp

/- ── drought_monitoring/utils/forecast_analyzer.py ──────────────────── -/

/-- The global numpy random generator, abstracted to its seeded state:
`np.random.seed(s)` makes the subsequent draw sequence a pure function
of `s`. -/
structure Rng where
  state : ℤ
deriving DecidableEq

/-- `np.random.seed(s)`. -/
def np_random_seed (s : ℤ) : Rng := { state := s }

/-- Python `int(q)`: truncation toward zero. -/
def pyInt (q : ℚ) : ℤ := q.num.tdiv (q.den : ℤ)

/-- The seed `int(latitude * 100 + longitude)` computed by every
synthetic-forecast generator. -/
def forecastSeed (latitude longitude : ℚ) : ℤ :=
  pyInt (latitude * 100 + longitude)

/-- The numpy draw primitives used by the forecast generators, as state
transformers on the global generator: `normal μ σ n`, `exponential scale
n` and `binomial(1, p_array)`.  The theorems below hold for every
implementation of these. -/
structure RandomDraws where
  normal : ℚ → ℚ → ℕ → Rng → List ℝ × Rng
  exponential : ℚ → ℕ → Rng → List ℝ × Rng
  binomialOne : List ℚ → Rng → List ℝ × Rng

/-- `np.linspace a b n` (for `n = 1` numpy returns `[a]`, which the
formula reproduces since division by zero is zero in `ℚ`). -/
def linspace (a b : ℚ) (n : ℕ) : List ℚ :=
  (List.range n).map (fun i => a + (b - a) * i / ((n : ℚ) - 1))

/-- The dictionary returned by `get_30day_forecast`; `dates` (pandas
wall-clock range) is carried as its length `numDays`, and the `type`
key is spelled `ftype`. -/
structure Forecast30 where
  numDays : ℕ
  temperature_max : List ℝ
  temperature_min : List ℝ
  precipitation : List ℝ
  et0 : List ℝ
  ftype : String
  timeframe : String
  confidence : ℚ

/-- `get_30day_forecast` (forecast_analyzer.py): seed from the location,
then draw the synthetic series in source order.  The incoming generator
state `rng` is the global `np.random` state before the call. -/
noncomputable def get_30day_forecast (draws : RandomDraws) (latitude longitude : ℚ)
    (numDays : ℕ) (rng : Rng) : Forecast30 × Rng :=
  let r0 := np_random_seed (forecastSeed latitude longitude)
  let base_temp : ℝ := 25 + (((latitude : ℚ) : ℝ) - 5) * (1/2)
  let d1 := draws.normal 3 2 numDays r0
  let temperature_max := d1.1.map (fun x => base_temp + x)
  let d2 := draws.normal (-3) 2 numDays d1.2
  let temperature_min := d2.1.map (fun x => base_temp + x)
  let rain_prob := linspace (3/10) (1/10) numDays
  let d3 := draws.exponential 5 numDays d2.2
  let d4 := draws.binomialOne rain_prob d3.2
  let precipitation := List.zipWith (fun a b => a * b) d3.1 d4.1
  let d5 := draws.normal 4 1 numDays d4.2
  ({ numDays := numDays, temperature_max := temperature_max,
     temperature_min := temperature_min, precipitation := precipitation,
     et0 := d5.1, ftype := "30days", timeframe := "30 jours",
     confidence := 7/10 }, d5.2)

/-- The dictionary returned by `get_longterm_forecast`; the number of
monthly timestamps produced by `pd.date_range(..., freq='M')` is carried
as `numMonths`. -/
structure ForecastLong where
  numMonths : ℕ
  temperature_max : List ℝ
  precipitation : List ℝ
  ftype : String
  timeframe : String
  confidence : ℚ
  warming_trend : List ℚ
  precip_trend : List ℚ

/-- `get_longterm_forecast` (forecast_analyzer.py): seed from the
location, then superimpose the warming/drying trends on the draws. -/
noncomputable def get_longterm_forecast (draws : RandomDraws) (latitude longitude : ℚ)
    (years : ℕ) (numMonths : ℕ) (rng : Rng) : ForecastLong × Rng :=
  let r0 := np_random_seed (forecastSeed latitude longitude)
  let base_temp : ℝ := 25 + (((latitude : ℚ) : ℝ) - 5) * (1/2)
  let warming_trend := linspace 0 ((8/10) * years) numMonths
  let d1 := draws.normal 0 2 numMonths r0
  let temperature_max := List.zipWith
    (fun w x => base_temp + ((w : ℚ) : ℝ) + x) warming_trend d1.1
  let precip_trend := linspace 0 (-(1/10) * years) numMonths
  let d2 := draws.exponential 80 numMonths d1.2
  let precipitation := List.zipWith
    (fun e t => max 0 (e + ((t : ℚ) : ℝ) * 20)) d2.1 precip_trend
  ({ numMonths := numMonths, temperature_max := temperature_max,
     precipitation := precipitation,
     ftype := toString years ++ "year",
     timeframe := toString years ++ " an(s)", confidence := 1/2,
     warming_trend := warming_trend, precip_trend := precip_trend }, d2.2)

/-- C9: forecast generation is deterministic per location — both
generators reseed from `(latitude, longitude)` before drawing, so their
output is independent of the incoming global generator state: two calls
with the same inputs (and the same number of dates, fixed horizon)
return identical series, whatever the draw implementation. -/
theorem C9_forecast_deterministic_per_location (draws : RandomDraws)
    (latitude longitude : ℚ) (numDays years numMonths : ℕ) (r1 r2 : Rng) :
    (get_30day_forecast draws latitude longitude numDays r1).1 =
      (get_30day_forecast draws latitude longitude numDays r2).1 ∧
    (get_longterm_forecast draws latitude longitude years numMonths r1).1 =
      (get_longterm_forecast draws latitude longitude years numMonths r2).1 :=
  ⟨rfl, rfl⟩

/- ── flood_monitoring/utils/flood_calculator.py ─────────────────────── -/

/-- `weather_data['hourly']` channels, each optionally present. -/
structure HourlyData where
  precipitation : Option (List ℚ)
  temperature_2m : Option (List ℚ)
  relative_humidity_2m : Option (List ℚ)

/-- The weather dictionary read by `FloodCalculator.calculate_risk`
(`daily` is extracted by the source but never used and is omitted). -/
structure WeatherData where
  hourly : Option HourlyData
  soil_moisture : Option (List ℚ)

/-- The locality metadata read by the flood calculator. -/
structure LocalityData where
  type_inondation : Option String
  zone : Option String
  facteurs_aggravation : Option String
  altitude : Option ℚ

/-- `Config.PRECIPITATION_THRESHOLDS['intensity_hourly']` (mm/h). -/
def intensity_hourly_threshold : ℚ := 50

/-- `Config.PRECIPITATION_THRESHOLDS['cumul_daily']` (mm/day). -/
def cumul_daily_threshold : ℚ := 200

/-- `Config.PRECIPITATION_THRESHOLDS['soil_moisture']` (% saturation). -/
def soil_moisture_threshold : ℚ := 85

/-- One entry of `Config.ALERT_LEVELS`. -/
structure AlertDetails where
  color : String
  delay : String
  actions : String
deriving Repr, DecidableEq

/-- `Config.ALERT_LEVELS` as a key lookup (`none` models a `KeyError`). -/
def ALERT_LEVELS (level : String) : Option AlertDetails :=
  if level = "Vigilance" then
    some { color := "green", delay := "72-48h",
           actions := "Surveillance renforcée" }
  else if level = "Pré-alerte" then
    some { color := "yellow", delay := "48-24h",
           actions := "Préparation communautaire" }
  else if level = "Alerte" then
    some { color := "orange", delay := "24-6h",
           actions := "Mise en sécurité biens/matériels" }
  else if level = "Alerte Maximale" then
    some { color := "red", delay := "<6h",
           actions := "Évacuation populations" }
  else none

/-- Python `max(l) if l else 0`, the guarded maximum used on the
precipitation lists. -/
def maxOrZero (l : List ℚ) : ℚ :=
  match l with
  | [] => 0
  | x :: xs => xs.foldl max x

/-- Python `pat in s` (substring containment). -/
def containsSubList (pat : List Char) : List Char → Bool
  | [] => pat.isEmpty
  | c :: rest => pat.isPrefixOf (c :: rest) || containsSubList pat rest

/-- Python `pat in s` on strings. -/
def pyIn (pat s : String) : Bool := containsSubList pat.data s.data

/-- Python `s.lower()` (ASCII case folding; the keywords compared against
are unaccented lowercase words). -/
def pyLower (s : String) : String := ⟨s.data.map Char.toLower⟩

/-- `FloodCalculator._calculate_ffg`. -/
def calculate_ffg (precipitation : List ℚ) (flood_type : String) : ℚ :=
  let total_precip := precipitation.sum
  let max_hourly := maxOrZero precipitation
  let threshold_factor : ℚ :=
    if flood_type = "Côtière" then 8/10
    else if flood_type = "Pluviale" then 1
    else 6/5
  min ((max_hourly / (intensity_hourly_threshold * threshold_factor)) * (6/10) +
    (total_precip / (cumul_daily_threshold * threshold_factor)) * (4/10)) 1

/-- `FloodCalculator._calculate_ifs`. -/
def calculate_ifs (precipitation humidity : List ℚ)
    (locality_data : LocalityData) : ℚ :=
  let zone := pyLower (locality_data.zone.getD "")
  let factors := pyLower (locality_data.facteurs_aggravation.getD "")
  let afterZone : ℚ :=
    if pyIn "urbain" zone || pyIn "côtière" zone then 13/10 else 1
  let impermeability_factor : ℚ :=
    if pyIn "urbanisation" factors then 3/2 else afterZone
  let avg_humidity : ℚ :=
    match humidity with
    | [] => 60
    | _ => npMean humidity
  let humidity_factor := avg_humidity / 100
  let precip_intensity : ℚ :=
    match precipitation with
    | [] => 0
    | _ => npMean precipitation
  let intensity_factor := min (precip_intensity / 20) 1
  min (impermeability_factor *
    (intensity_factor * (7/10) + humidity_factor * (3/10))) 1

/-- `FloodCalculator._calculate_soil_saturation`; `none` is the
`IndexError` raised by `weather_data.get('soil_moisture', [50])[0]` when
the key is present but the list empty. -/
def calculate_soil_saturation (weather_data : WeatherData)
    (locality_data : LocalityData) : Option ℚ :=
  match (weather_data.soil_moisture.getD [50]).head? with
  | none => none
  | some soil_moisture =>
      let altitude := locality_data.altitude.getD 100
      let altitude_factor := max (1/2) (1 - altitude / 1000)
      let saturation := min (soil_moisture / soil_moisture_threshold) 1
      some (saturation * altitude_factor)

/-- `FloodCalculator._get_flood_type_factor`. -/
def get_flood_type_factor (flood_type : String)
    (locality_data : LocalityData) : ℚ :=
  let base_factor : ℚ :=
    if flood_type = "Côtière" then 6/5
    else if flood_type = "Pluviale" then 11/10
    else if flood_type = "Fluviale" then 1
    else if flood_type = "Mixte" then 23/20
    else 1
  let factors := pyLower (locality_data.facteurs_aggravation.getD "")
  let adjusted :=
    if pyIn "drainage insuffisant" factors || pyIn "défrichement" factors then
      base_factor * (6/5)
    else base_factor
  min adjusted (3/2) / (3/2)

/-- `FloodCalculator._determine_alert_level`: bucket the
intensity-adjusted score and pair it with its `ALERT_LEVELS` entry. -/
def determine_alert_level (risk_score : ℚ) (precipitation : List ℚ) :
    Option (String × AlertDetails) :=
  let max_precip := maxOrZero precipitation
  let intensity_factor := min (max_precip / intensity_hourly_threshold) 2
  let adjusted_score := min (risk_score * intensity_factor) 1
  let level :=
    if 8/10 ≤ adjusted_score then "Alerte Maximale"
    else if 6/10 ≤ adjusted_score then "Alerte"
    else if 4/10 ≤ adjusted_score then "Pré-alerte"
    else "Vigilance"
  (ALERT_LEVELS level).map (fun d => (level, d))

/-- The details dictionary returned on the success path of
`calculate_risk`. -/
structure FloodDetails where
  ffg_score : ℚ
  ifs_score : ℚ
  soil_saturation : ℚ
  type_factor : ℚ
  precipitation_24h : ℚ
  max_hourly_precip : ℚ
  flood_type : String
  alert_details : AlertDetails
deriving Repr, DecidableEq

/-- The body of the `try` block of `FloodCalculator.calculate_risk`;
`none` is a raised exception. -/
def calculate_risk_body (weather_data : WeatherData)
    (locality_data : LocalityData) : Option (String × ℚ × FloodDetails) :=
  let hourly_data := weather_data.hourly.getD
    { precipitation := none, temperature_2m := none,
      relative_humidity_2m := none }
  let precipitation := (hourly_data.precipitation.getD [0]).take 24
  let _temperature := (hourly_data.temperature_2m.getD [25]).take 24
  let humidity := (hourly_data.relative_humidity_2m.getD [60]).take 24
  let flood_type := locality_data.type_inondation.getD "Mixte"
  let ffg_score := calculate_ffg precipitation flood_type
  let ifs_score := calculate_ifs precipitation humidity locality_data
  match calculate_soil_saturation weather_data locality_data with
  | none => none
  | some soil_saturation =>
      let type_factor := get_flood_type_factor flood_type locality_data
      let risk_score := ffg_score * (4/10) + ifs_score * (3/10) +
        soil_saturation * (2/10) + type_factor * (1/10)
      match determine_alert_level risk_score precipitation with
      | none => none
      | some (alert_level, alert_details) =>
          some (alert_level, risk_score,
            { ffg_score := ffg_score, ifs_score := ifs_score,
              soil_saturation := soil_saturation, type_factor := type_factor,
              precipitation_24h := precipitation.sum,
              max_hourly_precip := maxOrZero precipitation,
              flood_type := flood_type, alert_details := alert_details })

/-- `FloodCalculator.calculate_risk`: the `except` branch returns
`("Inconnu", 0.0, {})`, the empty details dictionary being `none`. -/
def calculate_risk (weather_data : WeatherData)
    (locality_data : LocalityData) : String × ℚ × Option FloodDetails :=
  match calculate_risk_body weather_data locality_data with
  | some (alert_level, risk_score, details) =>
      (alert_level, risk_score, some details)
  | none => ("Inconnu", 0, none)

/-- The four documented ordinal alert levels. -/
def flood_alert_level_names : List String :=
  ["Vigilance", "Pré-alerte", "Alerte", "Alerte Maximale"]

/-- `_determine_alert_level` only ever produces one of the four
documented levels. -/
theorem determine_alert_level_mem (risk_score : ℚ) (precipitation : List ℚ)
    (lvl : String) (d : AlertDetails)
    (h : determine_alert_level risk_score precipitation = some (lvl, d)) :
    lvl ∈ flood_alert_level_names := by
  simp only [determine_alert_level] at h
  split_ifs at h <;>
    simp_all [ALERT_LEVELS, flood_alert_level_names]

/-- A successful `calculate_risk_body` carries a level coming from
`_determine_alert_level`. -/
theorem calculate_risk_body_level_mem (weather_data : WeatherData)
    (locality_data : LocalityData) (lvl : String) (score : ℚ)
    (details : FloodDetails)
    (h : calculate_risk_body weather_data locality_data =
      some (lvl, score, details)) :
    lvl ∈ flood_alert_level_names := by
  simp only [calculate_risk_body] at h
  split at h
  · exact absurd h (by simp)
  · split at h
    · exact absurd h (by simp)
    · next heq =>
        rcases Option.some.injEq .. ▸ h with h
        injection h with h1 h2
        subst h1
        exact determine_alert_level_mem _ _ _ _ heq

/-- C10: `calculate_risk` is total; it either returns the fixed failure
triple `("Inconnu", 0, {})` — with `Inconnu` outside the four documented
alert levels and an empty details mapping — exactly when the body
raises, or an alert level among the four documented ones. -/
theorem C10_flood_calculate_risk_total (weather_data : WeatherData)
    (locality_data : LocalityData) :
    ((calculate_risk weather_data locality_data = ("Inconnu", 0, none) ∧
        calculate_risk_body weather_data locality_data = none) ∨
      (calculate_risk weather_data locality_data).1 ∈
        flood_alert_level_names) ∧
    "Inconnu" ∉ flood_alert_level_names := by
  refine ⟨?_, by decide⟩
  unfold calculate_risk
  cases hbody : calculate_risk_body weather_data locality_data with
  | none => exact Or.inl ⟨rfl, rfl⟩
  | some v =>
      obtain ⟨lvl, score, details⟩ := v
      exact Or.inr
        (calculate_risk_body_level_mem weather_data locality_data
          lvl score details hbody)
